import Mathlib

/-!
# Order service (`src/server.js`)

A shallow embedding of the request handlers of the order service: the JavaScript
values that reach the handlers from JSON request bodies and from the product
service, the `orders` table behind `pool.query`, and one Lean function per route.

Conventions of the embedding.

* A JavaScript number is `JsNum`: `NaN`, the two infinities, or a finite value,
  which is held as the rational it denotes (the sign of zero is not represented).
* `ToNumber` on strings and on arrays/objects, and the rounding of a product to a
  double, belong to the language runtime, not to this repository; they are a parameter
  (`Runtime`).  A product whose exact value is an integer of magnitude at most `2^53`
  is a double already and is returned as it is.
* `ORDER BY o.created_at DESC` names no second key.  The order in which the database
  returns rows of equal `created_at` is its own choice, made anew for each query; it
  is an input of the two listing handlers (`ListOutcome`).
* The table schema is not part of the source.  A row holds the parameter values
  exactly as the handler passes them to the query; a statement the database
  refuses (unreachable server, value the schema rejects, unreadable id) is a
  rejected query, which is an input of the handler (`QueryOutcome`,
  `InsertOutcome`) and leaves the table as it was.  `id` and `created_at` of a
  new row are chosen by the database and are inputs too.
-/

namespace OrderService

/-! ## JavaScript values -/

/-- A JavaScript number: `NaN`, `±Infinity`, or a finite value. -/
inductive JsNum where
  | nan
  | inf (negative : Bool)
  | fin (q : ℚ)
  deriving DecidableEq

/-- A value as it arrives in a parsed JSON document (or `undefined` for a property
that is not there).  Arrays and objects are kept as their JSON text. -/
inductive JsVal where
  | undefined
  | null
  | bool (b : Bool)
  | num (n : JsNum)
  | str (s : String)
  | obj (json : String)
  deriving DecidableEq

/-- The part of the language runtime the handlers rely on and that is not written in
the repository: `ToNumber` on a string, and on an array or object (where converting to
a primitive may throw a `TypeError`, rendered as `none`), and the IEEE-754 rounding of
an exact product to a double (to the nearest double, to an infinity on overflow). -/
structure Runtime where
  stringToNumber : String → JsNum
  objectToNumber : String → Option JsNum
  roundToDouble : ℚ → JsNum

/-- Truthiness of a number: everything but `0` and `NaN`. -/
def JsNum.truthy : JsNum → Bool
  | .nan => false
  | .inf _ => true
  | .fin q => q != 0

/-- JavaScript `ToBoolean`. -/
def JsVal.truthy : JsVal → Bool
  | .undefined => false
  | .null => false
  | .bool b => b
  | .num n => n.truthy
  | .str s => s != ""
  | .obj _ => true

/-- The operator `a || b`: `a` when it is truthy, otherwise `b`. -/
def jsOr (a b : JsVal) : JsVal :=
  if a.truthy then a else b

/-- An integer of magnitude at most `2^53`: every such value is a double. -/
def isSafeInteger (q : ℚ) : Bool :=
  decide (q.den = 1) && decide (q.num.natAbs ≤ 2 ^ 53)

/-- Product of two JavaScript numbers.  The product of two finite values is their
exact product rounded to a double: unchanged when it is an integer of magnitude at
most `2^53`, and what the runtime's rounding makes of it otherwise. -/
def JsNum.mul (rt : Runtime) : JsNum → JsNum → JsNum
  | .nan, _ => .nan
  | _, .nan => .nan
  | .inf a, .inf b => .inf (a != b)
  | .inf a, .fin q => if q = 0 then .nan else .inf (a != decide (q < 0))
  | .fin p, .inf b => if p = 0 then .nan else .inf (decide (p < 0) != b)
  | .fin p, .fin q => if isSafeInteger (p * q) then .fin (p * q) else rt.roundToDouble (p * q)

/-- JavaScript `ToNumber`; `none` when the conversion throws. -/
def toNumber (rt : Runtime) : JsVal → Option JsNum
  | .undefined => some .nan
  | .null => some (.fin 0)
  | .bool b => some (.fin (if b then 1 else 0))
  | .num n => some n
  | .str s => some (rt.stringToNumber s)
  | .obj j => rt.objectToNumber j

/-- The operator `a * b` on arbitrary values: both operands are converted with
`ToNumber`, left operand first. -/
def jsMul (rt : Runtime) (a b : JsVal) : Option JsNum :=
  match toNumber rt a with
  | none => none
  | some x =>
    match toNumber rt b with
    | none => none
    | some y => some (x.mul rt y)

/-! ## The store -/

/-- A row of the `orders` table. -/
structure Order where
  id : Nat
  product_id : JsVal
  quantity : JsVal
  total_price : JsNum
  status : String
  created_at : Nat
  deriving DecidableEq

/-- A row of the `products` table, as far as the order service reads it. -/
structure Product where
  id : JsVal
  publication_name : Option String
  deriving DecidableEq

/-- A row of `SELECT o.*, p.publication_name FROM orders o LEFT JOIN products p`. -/
structure OrderView where
  order : Order
  publication_name : Option String
  deriving DecidableEq

/-- The database: the two tables, rows in table order. -/
structure Db where
  orders : List Order
  products : List Product
  deriving DecidableEq

/-- Outcome of a `pool.query` call that reads, updates or deletes. -/
inductive QueryOutcome where
  | rejected
  | resolved
  deriving DecidableEq

/-- Outcome of a `pool.query` call with `ORDER BY o.created_at DESC`: rejected, or
answered, the database ranking the rows among those of equal `created_at` by `tie`
(lower rank first). -/
inductive ListOutcome where
  | rejected
  | resolved (tie : OrderView → Nat)

/-- Outcome of the `INSERT`: rejected, or accepted with the `id` and `created_at`
the database gave the new row. -/
inductive InsertOutcome where
  | rejected
  | stored (id : Nat) (created_at : Nat)
  deriving DecidableEq

/-- The SQL comparison `a = b` as a join condition: not satisfied when either side is
`NULL` (a `null` or `undefined` parameter is stored as `NULL`). -/
def sqlEq (a b : JsVal) : Bool :=
  decide (a ≠ .null) && decide (a ≠ .undefined) && decide (b ≠ .null)
    && decide (b ≠ .undefined) && decide (a = b)

/-- The rows `orders o LEFT JOIN products p ON o.product_id = p.id` for one order:
one per matching product, or a single row with a null name when none matches. -/
def joinOne (products : List Product) (o : Order) : List OrderView :=
  match products.filter (fun p => sqlEq o.product_id p.id) with
  | [] => [⟨o, none⟩]
  | ps => ps.map (fun p => ⟨o, p.publication_name⟩)

/-- The relation `orders o LEFT JOIN products p ON o.product_id = p.id`. -/
def leftJoin (db : Db) : List OrderView :=
  db.orders.flatMap (joinOne db.products)

/-- Whether row `r` is returned before row `x`: it is newer, or as new and not ranked
behind `x` by the database. -/
def rowBefore (tie : OrderView → Nat) (r x : OrderView) : Bool :=
  decide (x.order.created_at < r.order.created_at)
    || (decide (x.order.created_at = r.order.created_at) && decide (tie r ≤ tie x))

/-- Insert a row into a list that is ordered by `created_at`, newest first, in front of
the first row it is returned before. -/
def insertByCreatedAtDesc (tie : OrderView → Nat) (r : OrderView) :
    List OrderView → List OrderView
  | [] => [r]
  | x :: xs =>
    if rowBefore tie r x then r :: x :: xs
    else x :: insertByCreatedAtDesc tie r xs

/-- The clause `ORDER BY o.created_at DESC`, as an insertion sort: newest first, rows of
equal `created_at` in the order the database's ranking `tie` gives them. -/
def orderByCreatedAtDesc (tie : OrderView → Nat) : List OrderView → List OrderView
  | [] => []
  | r :: rs => insertByCreatedAtDesc tie r (orderByCreatedAtDesc tie rs)

/-! ## Requests and responses -/

/-- The JSON body of a response. -/
inductive Body where
  | error (message : String)
  | rows (rs : List OrderView)
  | view (r : OrderView)
  | order (o : Order)
  | deleted (message : String) (o : Order)
  deriving DecidableEq

/-- An HTTP response: status code and JSON body. -/
structure Response where
  status : Nat
  body : Body
  deriving DecidableEq

/-- The body of `POST /api/orders`; a property that is not sent is `undefined`. -/
structure CreateBody where
  product_id : JsVal
  quantity : JsVal
  deriving DecidableEq

/-- The `data` of a successful product-service response.  Reading a property of
`null` or `undefined` throws; any other value is kept as the two properties the
handler reads (`undefined` when the property is not there). -/
inductive ProductData where
  | nullish
  | fields (price_per_month price_per_year : JsVal)
  deriving DecidableEq

/-- Outcome of `axios.get` on the product service: it resolves with the response
data, or it rejects with an error whose `response?.status` is given (`none` when the
error carries no response). -/
inductive ValidatorOutcome where
  | resolved (data : ProductData)
  | rejected (responseStatus : Option Nat)
  deriving DecidableEq

/-- The array `validStatuses` of the status route. -/
def validStatuses : List String :=
  ["pending", "confirmed", "completed", "cancelled"]

/-- The test `validStatuses.includes(status)`: only a string equal to one of the four
entries is included. -/
def includesStatus : JsVal → Bool
  | .str s => validStatuses.contains s
  | _ => false

/-! ## Handlers -/

/-- Handler `GET /api/orders`. -/
def listOrders (db : Db) : ListOutcome → Response
  | .rejected => ⟨500, .error "Failed to fetch orders"⟩
  | .resolved tie => ⟨200, .rows (orderByCreatedAtDesc tie (leftJoin db))⟩

/-- Handler `GET /api/orders/:id`. -/
def getOrder (db : Db) (id : Nat) : QueryOutcome → Response
  | .rejected => ⟨500, .error "Failed to fetch order"⟩
  | .resolved =>
    match (leftJoin db).filter (fun r => decide (r.order.id = id)) with
    | [] => ⟨404, .error "Order not found"⟩
    | r :: _ => ⟨200, .view r⟩

/-- The expression `product.price_per_month || product.price_per_year || 0`. -/
def unitPrice (price_per_month price_per_year : JsVal) : JsVal :=
  jsOr (jsOr price_per_month price_per_year) (.num (.fin 0))

/-- The destructuring default `quantity = 1`. -/
def quantityOrDefault (quantity : JsVal) : JsVal :=
  if quantity = .undefined then .num (.fin 1) else quantity

/-- Handler `POST /api/orders`: the response and the database afterwards. -/
def createOrder (rt : Runtime) (db : Db) (body : CreateBody)
    (validator : ValidatorOutcome) (ins : InsertOutcome) : Response × Db :=
  let quantity := quantityOrDefault body.quantity
  if !body.product_id.truthy then
    (⟨400, .error "Product ID is required"⟩, db)
  else
    match validator with
    | .rejected (some 404) => (⟨400, .error "Product not found"⟩, db)
    | .rejected _ => (⟨500, .error "Failed to validate product"⟩, db)
    | .resolved .nullish => (⟨500, .error "Failed to create order"⟩, db)
    | .resolved (.fields pm py) =>
      match jsMul rt (unitPrice pm py) quantity with
      | none => (⟨500, .error "Failed to create order"⟩, db)
      | some total_price =>
        match ins with
        | .rejected => (⟨500, .error "Failed to create order"⟩, db)
        | .stored id created_at =>
          let row : Order := ⟨id, body.product_id, quantity, total_price, "pending", created_at⟩
          (⟨201, .order row⟩, ⟨db.orders ++ [row], db.products⟩)

/-- The statement `UPDATE orders SET status = $1 WHERE id = $2`. -/
def setStatus (status : String) (id : Nat) (o : Order) : Order :=
  if o.id = id then ⟨o.id, o.product_id, o.quantity, o.total_price, status, o.created_at⟩ else o

/-- Handler `PUT /api/orders/:id/status`. -/
def updateStatus (db : Db) (id : Nat) (status : JsVal) (q : QueryOutcome) : Response × Db :=
  if !includesStatus status then
    (⟨400, .error "Invalid status"⟩, db)
  else
    match status, q with
    | .str s, .resolved =>
      let orders := db.orders.map (setStatus s id)
      match orders.filter (fun o => decide (o.id = id)) with
      | [] => (⟨404, .error "Order not found"⟩, ⟨orders, db.products⟩)
      | o :: _ => (⟨200, .order o⟩, ⟨orders, db.products⟩)
    | _, _ => (⟨500, .error "Failed to update order"⟩, db)

/-- Handler `GET /api/orders/status/:status`. -/
def listByStatus (db : Db) (status : String) : ListOutcome → Response
  | .rejected => ⟨500, .error "Failed to fetch orders"⟩
  | .resolved tie =>
    ⟨200, .rows (orderByCreatedAtDesc tie
      ((leftJoin db).filter (fun r => decide (r.order.status = status))))⟩

/-- Handler `DELETE /api/orders/:id`. -/
def deleteOrder (db : Db) (id : Nat) : QueryOutcome → Response × Db
  | .rejected => (⟨500, .error "Failed to delete order"⟩, db)
  | .resolved =>
    let kept := db.orders.filter (fun o => !decide (o.id = id))
    match db.orders.filter (fun o => decide (o.id = id)) with
    | [] => (⟨404, .error "Order not found"⟩, ⟨kept, db.products⟩)
    | o :: _ => (⟨200, .deleted "Order deleted successfully" o⟩, ⟨kept, db.products⟩)

/-! ## Sequences of writing requests -/

/-- A request that can change the `orders` table, with the outcomes of the outbound
calls its handler makes. -/
inductive Request where
  | create (body : CreateBody) (validator : ValidatorOutcome) (ins : InsertOutcome)
  | update (id : Nat) (status : JsVal) (q : QueryOutcome)
  | delete (id : Nat) (q : QueryOutcome)

/-- The database after one request has been handled. -/
def step (rt : Runtime) (db : Db) : Request → Db
  | .create body validator ins => (createOrder rt db body validator ins).2
  | .update id status q => (updateStatus db id status q).2
  | .delete id q => (deleteOrder db id q).2

/-- The database after a sequence of requests, handled one after the other. -/
def run (rt : Runtime) (db : Db) (reqs : List Request) : Db :=
  reqs.foldl (step rt) db

/-- Every stored order carries one of the four statuses. -/
def StatusInvariant (db : Db) : Prop :=
  ∀ o ∈ db.orders, o.status ∈ validStatuses

/-- Rows ordered by `created_at`, newest first. -/
def SortedDesc (l : List OrderView) : Prop :=
  l.Pairwise (fun a b => b.order.created_at ≤ a.order.created_at)

end OrderService

namespace OrderService

/-! ## Auxiliary facts about the queries -/

theorem mem_insertByCreatedAtDesc (tie : OrderView → Nat) (r y : OrderView)
    (l : List OrderView) : y ∈ insertByCreatedAtDesc tie r l ↔ y = r ∨ y ∈ l := by
  induction l with
  | nil => simp [insertByCreatedAtDesc]
  | cons x xs ih =>
    unfold insertByCreatedAtDesc
    split
    · simp
    · simp only [List.mem_cons, ih]
      tauto

theorem perm_insertByCreatedAtDesc (tie : OrderView → Nat) (r : OrderView)
    (l : List OrderView) : (insertByCreatedAtDesc tie r l).Perm (r :: l) := by
  induction l with
  | nil => exact List.Perm.refl _
  | cons x xs ih =>
    unfold insertByCreatedAtDesc
    split
    · exact List.Perm.refl _
    · exact (List.Perm.cons x ih).trans (List.Perm.swap r x xs)

theorem perm_orderByCreatedAtDesc (tie : OrderView → Nat) (l : List OrderView) :
    (orderByCreatedAtDesc tie l).Perm l := by
  induction l with
  | nil => exact List.Perm.refl _
  | cons r rs ih =>
    exact (perm_insertByCreatedAtDesc tie r _).trans (List.Perm.cons r ih)

theorem sortedDesc_insertByCreatedAtDesc (tie : OrderView → Nat) (r : OrderView)
    (l : List OrderView) (h : SortedDesc l) : SortedDesc (insertByCreatedAtDesc tie r l) := by
  induction l with
  | nil => simp [insertByCreatedAtDesc, SortedDesc]
  | cons x xs ih =>
    unfold SortedDesc at h ih ⊢
    rw [List.pairwise_cons] at h
    unfold insertByCreatedAtDesc
    split
    · rename_i hb
      have hle : x.order.created_at ≤ r.order.created_at := by
        simp only [rowBefore, Bool.or_eq_true, Bool.and_eq_true, decide_eq_true_eq] at hb
        omega
      refine List.pairwise_cons.2 ⟨?_, List.pairwise_cons.2 h⟩
      intro y hy
      rcases List.mem_cons.1 hy with rfl | hy
      · exact hle
      · exact le_trans (h.1 y hy) hle
    · rename_i hb
      have hle : r.order.created_at ≤ x.order.created_at := by
        simp only [rowBefore, Bool.or_eq_true, Bool.and_eq_true, decide_eq_true_eq] at hb
        omega
      refine List.pairwise_cons.2 ⟨?_, ih h.2⟩
      intro y hy
      rcases (mem_insertByCreatedAtDesc tie r y xs).1 hy with rfl | hy
      · exact hle
      · exact h.1 y hy

theorem sortedDesc_orderByCreatedAtDesc (tie : OrderView → Nat) (l : List OrderView) :
    SortedDesc (orderByCreatedAtDesc tie l) := by
  induction l with
  | nil => simp [orderByCreatedAtDesc, SortedDesc]
  | cons r rs ih => exact sortedDesc_insertByCreatedAtDesc tie r _ ih

theorem eq_of_perm_of_sortedDesc (l₁ l₂ : List OrderView) (hp : l₁.Perm l₂)
    (h₁ : SortedDesc l₁) (h₂ : SortedDesc l₂)
    (hd : l₂.Pairwise (fun a b => a.order.created_at ≠ b.order.created_at)) : l₁ = l₂ := by
  haveI : IsAntisymm OrderView (fun a b => b.order.created_at < a.order.created_at) :=
    ⟨fun a b hab hba => absurd (lt_trans hab hba) (lt_irrefl _)⟩
  have hd₁ : l₁.Pairwise (fun a b => a.order.created_at ≠ b.order.created_at) :=
    (hp.pairwise_iff (fun h => Ne.symm h)).2 hd
  have strict : ∀ l : List OrderView, SortedDesc l →
      l.Pairwise (fun a b => a.order.created_at ≠ b.order.created_at) →
      l.Pairwise (fun a b => b.order.created_at < a.order.created_at) := by
    intro l hs hne
    exact (hs.and hne).imp (fun h => lt_of_le_of_ne h.1 (Ne.symm h.2))
  exact List.eq_of_perm_of_sorted hp (strict l₁ h₁ hd₁) (strict l₂ h₂ hd)

theorem order_of_mem_joinOne (products : List Product) (o : Order) (r : OrderView)
    (h : r ∈ joinOne products o) : r.order = o := by
  unfold joinOne at h
  split at h
  · simp at h
    rw [h]
  · simp only [List.mem_map] at h
    obtain ⟨p, _, rfl⟩ := h
    rfl

theorem order_mem_of_mem_leftJoin (db : Db) (r : OrderView) (h : r ∈ leftJoin db) :
    r.order ∈ db.orders := by
  unfold leftJoin at h
  rw [List.mem_flatMap] at h
  obtain ⟨o, ho, hr⟩ := h
  rw [order_of_mem_joinOne _ _ _ hr]
  exact ho

end OrderService

namespace OrderService

/-! ## Product validation failures -/

/-- C2: for a request with a truthy (present, non-empty) `product_id`, a product-service
failure with a 404 response is answered 400 "Product not found" (hence not 500), and a
failure with any other response status, or with no response at all, is answered 500
"Failed to validate product"; in both cases nothing is written. -/
theorem createOrder_validator_failure (rt : Runtime) (db : Db) (body : CreateBody)
    (ins : InsertOutcome) (hpid : body.product_id.truthy = true) :
    createOrder rt db body (.rejected (some 404)) ins
        = (⟨400, .error "Product not found"⟩, db)
      ∧ (createOrder rt db body (.rejected (some 404)) ins).1.status ≠ 500
      ∧ ∀ st : Option Nat, st ≠ some 404 →
          createOrder rt db body (.rejected st) ins
            = (⟨500, .error "Failed to validate product"⟩, db) := by
  refine ⟨?_, ?_, ?_⟩
  · simp [createOrder, hpid]
  · simp [createOrder, hpid]
  · intro st hst
    cases st with
    | none => simp [createOrder, hpid]
    | some n =>
      have hn : n ≠ 404 := fun h => hst (by rw [h])
      unfold createOrder
      split
      · simp_all
      · split
        · rename_i heq
          injection heq with heq
          injection heq with heq
          exact absurd heq hn
        · rfl
        · rename_i heq
          cases heq
        · rename_i heq
          cases heq

theorem createOrder_validator_failure_witness :
    createOrder ⟨fun _ => .nan, fun _ => none, fun _ => .nan⟩ ⟨[], []⟩ ⟨.str "P404", .undefined⟩
        (.rejected (some 404)) (.stored 1 0)
        = (⟨400, .error "Product not found"⟩, ⟨[], []⟩)
      ∧ createOrder ⟨fun _ => .nan, fun _ => none, fun _ => .nan⟩ ⟨[], []⟩ ⟨.str "P404", .undefined⟩
          (.rejected (some 503)) (.stored 1 0)
        = (⟨500, .error "Failed to validate product"⟩, ⟨[], []⟩)
      ∧ createOrder ⟨fun _ => .nan, fun _ => none, fun _ => .nan⟩ ⟨[], []⟩ ⟨.str "P404", .undefined⟩
          (.rejected none) (.stored 1 0)
        = (⟨500, .error "Failed to validate product"⟩, ⟨[], []⟩) :=
  have h := createOrder_validator_failure ⟨fun _ => .nan, fun _ => none, fun _ => .nan⟩ ⟨[], []⟩
    ⟨.str "P404", .undefined⟩ (.stored 1 0) (by decide)
  ⟨h.1, h.2.2 (some 503) (by decide), h.2.2 none (by decide)⟩

/-! ## Status updates with a status outside the fixed set -/

/-- C3: for every order id and every `status` of the request body that is not one of
the strings "pending", "confirmed", "completed", "cancelled" (an absent status
included), the status route answers 400 "Invalid status" and the database is the one
before the call, whatever the database would have answered to a query and whether or
not an order with that id exists. -/
theorem updateStatus_invalid_status (db : Db) (id : Nat) (status : JsVal) (q : QueryOutcome)
    (h : ∀ s ∈ validStatuses, status ≠ .str s) :
    updateStatus db id status q = (⟨400, .error "Invalid status"⟩, db) := by
  have hinc : includesStatus status = false := by
    cases status with
    | str s =>
      simp only [includesStatus]
      by_contra hc
      have hmem : s ∈ validStatuses := by simpa using hc
      exact h s hmem rfl
    | _ => rfl
  simp [updateStatus, hinc]

theorem updateStatus_invalid_status_witness :
    updateStatus ⟨[⟨7, .str "P1", .num (.fin 1), .fin 10, "pending", 0⟩], []⟩ 7
        (.str "done") .resolved
      = (⟨400, .error "Invalid status"⟩,
          ⟨[⟨7, .str "P1", .num (.fin 1), .fin 10, "pending", 0⟩], []⟩)
    ∧ updateStatus ⟨[], []⟩ 7 .undefined .rejected
      = (⟨400, .error "Invalid status"⟩, ⟨[], []⟩) :=
  ⟨updateStatus_invalid_status _ 7 (.str "done") .resolved (by decide),
    updateStatus_invalid_status _ 7 .undefined .rejected (by decide)⟩

/-! ## Delete, then read -/

/-- C4: for every database and every id, after `DELETE /api/orders/:id` has run its
query (it answers 200 or 404), `GET /api/orders/:id` on the resulting database answers
404 "Order not found". -/
theorem getOrder_after_deleteOrder (db : Db) (id : Nat) :
    ((deleteOrder db id .resolved).1.status = 200 ∨ (deleteOrder db id .resolved).1.status = 404)
      ∧ getOrder (deleteOrder db id .resolved).2 id .resolved
          = ⟨404, .error "Order not found"⟩ := by
  constructor
  · simp only [deleteOrder]
    split <;> simp
  · have hdb : (deleteOrder db id .resolved).2
        = ⟨db.orders.filter (fun o => !decide (o.id = id)), db.products⟩ := by
      simp only [deleteOrder]
      split <;> rfl
    rw [hdb]
    unfold getOrder
    have hnil : (leftJoin ⟨db.orders.filter (fun o => !decide (o.id = id)), db.products⟩).filter
        (fun r => decide (r.order.id = id)) = [] := by
      rw [List.filter_eq_nil_iff]
      intro r hr
      have hmem := order_mem_of_mem_leftJoin _ r hr
      have := (List.mem_filter.1 hmem).2
      simpa using this
    simp [hnil]

/-! ## Listing by status -/

/-- C5 (counterexample): two pending orders with the same `created_at`; the database
returns them in one order to `GET /api/orders` and in the other order to
`GET /api/orders/status/pending`, as `ORDER BY o.created_at DESC` allows, so the rows
of the second response are not the filtered rows of the first. -/
theorem listByStatus_tie_order_differs :
    listOrders ⟨[⟨1, .str "P1", .num (.fin 1), .fin 10, "pending", 5⟩,
        ⟨2, .str "P1", .num (.fin 1), .fin 10, "pending", 5⟩], []⟩
        (.resolved (fun r => r.order.id))
      = ⟨200, .rows [⟨⟨1, .str "P1", .num (.fin 1), .fin 10, "pending", 5⟩, none⟩,
          ⟨⟨2, .str "P1", .num (.fin 1), .fin 10, "pending", 5⟩, none⟩]⟩
    ∧ listByStatus ⟨[⟨1, .str "P1", .num (.fin 1), .fin 10, "pending", 5⟩,
        ⟨2, .str "P1", .num (.fin 1), .fin 10, "pending", 5⟩], []⟩ "pending"
        (.resolved (fun r => 2 - r.order.id))
      = ⟨200, .rows [⟨⟨2, .str "P1", .num (.fin 1), .fin 10, "pending", 5⟩, none⟩,
          ⟨⟨1, .str "P1", .num (.fin 1), .fin 10, "pending", 5⟩, none⟩]⟩
    ∧ [(⟨⟨2, .str "P1", .num (.fin 1), .fin 10, "pending", 5⟩, none⟩ : OrderView),
          ⟨⟨1, .str "P1", .num (.fin 1), .fin 10, "pending", 5⟩, none⟩]
        ≠ [(⟨⟨1, .str "P1", .num (.fin 1), .fin 10, "pending", 5⟩, none⟩ : OrderView),
          ⟨⟨2, .str "P1", .num (.fin 1), .fin 10, "pending", 5⟩, none⟩].filter
            (fun r => decide (r.order.status = "pending")) := by
  refine ⟨by decide, by decide, by decide⟩

/-- C5 (amended): for every database and every status string `s`, in the fixed set or
not, and whatever order the database gives rows of equal `created_at` in either query,
both listings answer 200, both are ordered newest `created_at` first, `GET /api/orders`
returns every row of the joined relation, and the rows of
`GET /api/orders/status/:status` are exactly the rows of `GET /api/orders` whose status
is `s`, each as often, possibly with rows of equal `created_at` in another order; when
no two listed rows share a `created_at` the two sequences are equal.  When no stored
order has status `s` (an unrecognized `s` in a database that satisfies the status
invariant) the answer is 200 with an empty array. -/
theorem listByStatus_perm_filter_listOrders (db : Db) (s : String)
    (tieAll tieSel : OrderView → Nat) :
    ∃ all sel : List OrderView,
      listOrders db (.resolved tieAll) = ⟨200, .rows all⟩
      ∧ listByStatus db s (.resolved tieSel) = ⟨200, .rows sel⟩
      ∧ all.Perm (leftJoin db)
      ∧ SortedDesc all ∧ SortedDesc sel
      ∧ sel.Perm (all.filter (fun r => decide (r.order.status = s)))
      ∧ (all.Pairwise (fun a b => a.order.created_at ≠ b.order.created_at) →
          sel = all.filter (fun r => decide (r.order.status = s)))
      ∧ (s ∉ validStatuses → StatusInvariant db → sel = []) := by
  have hperm : (orderByCreatedAtDesc tieSel
        ((leftJoin db).filter (fun r => decide (r.order.status = s)))).Perm
      ((orderByCreatedAtDesc tieAll (leftJoin db)).filter
        (fun r => decide (r.order.status = s))) :=
    (perm_orderByCreatedAtDesc tieSel _).trans
      ((perm_orderByCreatedAtDesc tieAll (leftJoin db)).filter _).symm
  refine ⟨orderByCreatedAtDesc tieAll (leftJoin db),
    orderByCreatedAtDesc tieSel ((leftJoin db).filter (fun r => decide (r.order.status = s))),
    rfl, rfl, perm_orderByCreatedAtDesc tieAll _, sortedDesc_orderByCreatedAtDesc tieAll _,
    sortedDesc_orderByCreatedAtDesc tieSel _, hperm, ?_, ?_⟩
  · intro hd
    refine eq_of_perm_of_sortedDesc _ _ hperm (sortedDesc_orderByCreatedAtDesc tieSel _) ?_ ?_
    · exact List.Pairwise.filter _ (sortedDesc_orderByCreatedAtDesc tieAll _)
    · exact List.Pairwise.filter _ hd
  · intro hs hinv
    have hnil : (leftJoin db).filter (fun r => decide (r.order.status = s)) = [] := by
      rw [List.filter_eq_nil_iff]
      intro r hr
      have hmem := hinv _ (order_mem_of_mem_leftJoin db r hr)
      have hne : r.order.status ≠ s := fun h => hs (h ▸ hmem)
      simpa using hne
    rw [hnil]
    rfl

end OrderService

namespace OrderService

/-! ## Auxiliary facts about the writing handlers -/

theorem createOrder_accepted (rt : Runtime) (db : Db) (body : CreateBody) (pm py : JsVal)
    (id created_at : Nat) (total : JsNum) (hpid : body.product_id.truthy = true)
    (hmul : jsMul rt (unitPrice pm py) (quantityOrDefault body.quantity) = some total) :
    createOrder rt db body (.resolved (.fields pm py)) (.stored id created_at)
      = (⟨201, .order ⟨id, body.product_id, quantityOrDefault body.quantity, total,
            "pending", created_at⟩⟩,
          ⟨db.orders ++ [⟨id, body.product_id, quantityOrDefault body.quantity, total,
            "pending", created_at⟩], db.products⟩) := by
  simp [createOrder, hpid, hmul]

theorem createOrder_cases (rt : Runtime) (db : Db) (body : CreateBody)
    (validator : ValidatorOutcome) (ins : InsertOutcome) :
    (∃ row : Order,
        createOrder rt db body validator ins
          = (⟨201, .order row⟩, ⟨db.orders ++ [row], db.products⟩)
        ∧ row.status = "pending" ∧ row.product_id = body.product_id
        ∧ row.quantity = quantityOrDefault body.quantity)
      ∨ (((createOrder rt db body validator ins).1.status = 400
            ∨ (createOrder rt db body validator ins).1.status = 500)
          ∧ (createOrder rt db body validator ins).2 = db) := by
  by_cases hpid : body.product_id.truthy = true
  · cases validator with
    | rejected st =>
      refine Or.inr ?_
      by_cases hst : st = some 404
      · subst hst
        simp [createOrder, hpid]
      · have h500 : createOrder rt db body (.rejected st) ins
            = (⟨500, .error "Failed to validate product"⟩, db) := by
          unfold createOrder
          split
          · simp_all
          · split
            · rename_i heq
              injection heq with heq
              exact absurd heq hst
            · rfl
            · rename_i heq
              cases heq
            · rename_i heq
              cases heq
        simp [h500]
    | resolved data =>
      cases data with
      | nullish => exact Or.inr (by simp [createOrder, hpid])
      | fields pm py =>
        cases hmul : jsMul rt (unitPrice pm py) (quantityOrDefault body.quantity) with
        | none => exact Or.inr (by simp [createOrder, hpid, hmul])
        | some total =>
          cases ins with
          | rejected => exact Or.inr (by simp [createOrder, hpid, hmul])
          | stored id created_at =>
            exact Or.inl ⟨_, createOrder_accepted rt db body pm py id created_at total hpid hmul,
              rfl, rfl, rfl⟩
  · have hpid : body.product_id.truthy = false := by simpa using hpid
    exact Or.inr (by simp [createOrder, hpid])

theorem setStatus_id (s : String) (id : Nat) (o : Order) : (setStatus s id o).id = o.id := by
  unfold setStatus
  split <;> rfl

theorem updateStatus_db (db : Db) (id : Nat) (status : JsVal) (q : QueryOutcome) :
    (updateStatus db id status q).2 = db
      ∨ ∃ s ∈ validStatuses, status = .str s
          ∧ (updateStatus db id status q).2 = ⟨db.orders.map (setStatus s id), db.products⟩ := by
  unfold updateStatus
  split
  · exact Or.inl rfl
  · rename_i hinc
    split
    · rename_i s
      have hs : s ∈ validStatuses := by simpa [includesStatus] using hinc
      refine Or.inr ⟨s, hs, rfl, ?_⟩
      dsimp only
      split <;> rfl
    · exact Or.inl rfl

theorem deleteOrder_db (db : Db) (id : Nat) (q : QueryOutcome) :
    (deleteOrder db id q).2 = db
      ∨ (deleteOrder db id q).2 = ⟨db.orders.filter (fun o => !decide (o.id = id)), db.products⟩ := by
  cases q with
  | rejected => exact Or.inl rfl
  | resolved =>
    refine Or.inr ?_
    simp only [deleteOrder]
    split <;> rfl

theorem statusInvariant_step (rt : Runtime) (db : Db) (req : Request)
    (h : StatusInvariant db) : StatusInvariant (step rt db req) := by
  cases req with
  | create body validator ins =>
    rcases createOrder_cases rt db body validator ins with ⟨row, heq, hst, _, _⟩ | ⟨_, heq⟩
    · intro o ho
      simp only [step, heq, List.mem_append, List.mem_singleton] at ho
      rcases ho with ho | rfl
      · exact h o ho
      · rw [hst]; decide
    · simp only [step, heq]; exact h
  | update id status q =>
    rcases updateStatus_db db id status q with heq | ⟨s, hs, _, heq⟩
    · simp only [step, heq]; exact h
    · intro o ho
      simp only [step, heq, List.mem_map] at ho
      obtain ⟨o₀, ho₀, rfl⟩ := ho
      unfold setStatus
      split
      · exact hs
      · exact h o₀ ho₀
  | delete id q =>
    rcases deleteOrder_db db id q with heq | heq
    · simp only [step, heq]; exact h
    · intro o ho
      simp only [step, heq] at ho
      exact h o (List.mem_filter.1 ho).1

/-! ## Atomicity of creation -/

/-- C6: for every request body, validator outcome and insert outcome, `POST /api/orders`
either answers 201 and the table has gained exactly one row, the returned one, with
status "pending" and the request's `product_id` and quantity (1 when the request sends
none), or answers 400 or 500 and leaves the database as it was.  A falsy `product_id`
and a rejected validator call are answered before the insert: the result is the same
whatever the insert would have done, and nothing is written. -/
theorem createOrder_atomic (rt : Runtime) (db : Db) (body : CreateBody)
    (validator : ValidatorOutcome) (ins : InsertOutcome) :
    ((∃ row : Order,
          createOrder rt db body validator ins
            = (⟨201, .order row⟩, ⟨db.orders ++ [row], db.products⟩)
          ∧ row.status = "pending" ∧ row.product_id = body.product_id
          ∧ row.quantity = (if body.quantity = .undefined then .num (.fin 1) else body.quantity))
        ∨ (((createOrder rt db body validator ins).1.status = 400
              ∨ (createOrder rt db body validator ins).1.status = 500)
            ∧ (createOrder rt db body validator ins).2 = db))
      ∧ ((body.product_id.truthy = false ∨ ∃ st, validator = .rejected st) →
          (createOrder rt db body validator ins).2 = db
          ∧ ∀ other : InsertOutcome,
              createOrder rt db body validator other = createOrder rt db body validator ins) := by
  refine ⟨createOrder_cases rt db body validator ins, ?_⟩
  rintro (hpid | ⟨st, rfl⟩)
  · simp [createOrder, hpid]
  · by_cases hp : body.product_id.truthy = true
    · refine ⟨?_, fun other => ?_⟩
      · unfold createOrder
        split
        · rfl
        · split <;> first | rfl | (rename_i heq; cases heq)
      · unfold createOrder
        split
        · rfl
        · split <;> first | rfl | (rename_i heq; cases heq)
    · have hp : body.product_id.truthy = false := by simpa using hp
      simp [createOrder, hp]

/-! ## The status invariant -/

/-- C7: if every stored order has one of the four statuses (as in the empty table),
then after any finite sequence of create, status-update and delete requests, with
arbitrary arguments and arbitrary outcomes of the outbound calls, every stored order
still has one of the four statuses. -/
theorem statusInvariant_run (rt : Runtime) (reqs : List Request) (db : Db)
    (h : StatusInvariant db) : StatusInvariant (run rt db reqs) := by
  induction reqs generalizing db with
  | nil => exact h
  | cons r rs ih => exact ih (step rt db r) (statusInvariant_step rt db r h)

end OrderService

namespace OrderService

theorem statusInvariant_run_witness :
    StatusInvariant ⟨[], []⟩
      ∧ StatusInvariant (run ⟨fun _ => .nan, fun _ => none, fun _ => .nan⟩ ⟨[], []⟩
          [.create ⟨.str "P1", .num (.fin 3)⟩ (.resolved (.fields (.num (.fin 10)) .undefined))
              (.stored 1 0),
            .update 1 (.str "done") .resolved,
            .update 1 (.str "confirmed") .resolved,
            .delete 2 .resolved]) :=
  have h0 : StatusInvariant ⟨[], []⟩ := fun _ ho => absurd ho (List.not_mem_nil _)
  ⟨h0, statusInvariant_run _ _ _ h0⟩

/-! ## Status updates with a status of the fixed set -/

/-- C10: for every database, every id and every `new_status` among the four values,
when the update query is answered: if an order with that id is stored, the status route
answers 200 with that order carrying `new_status` and its other fields as before; row by
row the table after the call has the same id, product_id, quantity, total_price and
created_at as before, the rows with that id carry `new_status` and every other row,
like the products table, is unchanged; if no order has that id the answer is 404
"Order not found" and the database is unchanged. -/
theorem updateStatus_valid_status (db : Db) (id : Nat) (s : String) (hs : s ∈ validStatuses) :
    ((∃ o ∈ db.orders, o.id = id) →
        ∃ o ∈ db.orders, o.id = id
          ∧ (updateStatus db id (.str s) .resolved).1
              = ⟨200, .order ⟨o.id, o.product_id, o.quantity, o.total_price, s, o.created_at⟩⟩
          ∧ (⟨o.id, o.product_id, o.quantity, o.total_price, s, o.created_at⟩ : Order)
              ∈ (updateStatus db id (.str s) .resolved).2.orders)
      ∧ List.Forall₂
          (fun o o' : Order =>
            o'.id = o.id ∧ o'.product_id = o.product_id ∧ o'.quantity = o.quantity
              ∧ o'.total_price = o.total_price ∧ o'.created_at = o.created_at
              ∧ (o.id = id → o'.status = s) ∧ (o.id ≠ id → o' = o))
          db.orders (updateStatus db id (.str s) .resolved).2.orders
      ∧ (updateStatus db id (.str s) .resolved).2.products = db.products
      ∧ ((∀ o ∈ db.orders, o.id ≠ id) →
          updateStatus db id (.str s) .resolved = (⟨404, .error "Order not found"⟩, db)) := by
  have hinc : includesStatus (.str s) = true := by simpa [includesStatus] using hs
  have hfilter : (db.orders.map (setStatus s id)).filter (fun o => decide (o.id = id))
      = (db.orders.filter (fun o => decide (o.id = id))).map (setStatus s id) := by
    rw [List.filter_map]
    congr 1
    apply List.filter_congr
    intro o _
    simp [Function.comp, setStatus_id]
  have hdb : (updateStatus db id (.str s) .resolved).2
      = ⟨db.orders.map (setStatus s id), db.products⟩ := by
    simp only [updateStatus, hinc, Bool.not_true, Bool.false_eq_true, if_false]
    split <;> rfl
  refine ⟨?_, ?_, ?_, ?_⟩
  · rintro ⟨o₀, ho₀, hid₀⟩
    cases hf : db.orders.filter (fun o => decide (o.id = id)) with
    | nil =>
      have : o₀ ∈ db.orders.filter (fun o => decide (o.id = id)) :=
        List.mem_filter.2 ⟨ho₀, by simpa using hid₀⟩
      rw [hf] at this
      exact absurd this (List.not_mem_nil _)
    | cons o rest =>
      have hmem : o ∈ db.orders.filter (fun o => decide (o.id = id)) := by
        rw [hf]; exact List.mem_cons_self o rest
      have ho := List.mem_filter.1 hmem
      have hid : o.id = id := by simpa using ho.2
      have hset : setStatus s id o
          = ⟨o.id, o.product_id, o.quantity, o.total_price, s, o.created_at⟩ := by
        simp [setStatus, hid]
      refine ⟨o, ho.1, hid, ?_, ?_⟩
      · simp only [updateStatus, hinc, hfilter, hf, List.map_cons, hset]
        rfl
      · rw [hdb, ← hset]
        exact List.mem_map_of_mem _ ho.1
  · rw [hdb]
    show List.Forall₂ _ db.orders (db.orders.map (setStatus s id))
    rw [List.forall₂_map_right_iff]
    apply List.forall₂_same.2
    intro o _
    by_cases hid : o.id = id <;> simp [setStatus, hid]
  · rw [hdb]
  · intro hnone
    have hmap : db.orders.map (setStatus s id) = db.orders := by
      conv_rhs => rw [← List.map_id db.orders]
      apply List.map_congr_left
      intro o ho
      simp [setStatus, hnone o ho]
    have hnil : db.orders.filter (fun o => decide (o.id = id)) = [] := by
      rw [List.filter_eq_nil_iff]
      intro o ho
      simpa using hnone o ho
    simp [updateStatus, hinc, hmap, hnil]

theorem updateStatus_valid_status_witness :
    (∃ o ∈ [(⟨7, .str "P1", .num (.fin 1), .fin 10, "cancelled", 0⟩ : Order),
              ⟨8, .str "P2", .num (.fin 2), .fin 40, "confirmed", 1⟩], o.id = 7
        ∧ (updateStatus ⟨[⟨7, .str "P1", .num (.fin 1), .fin 10, "cancelled", 0⟩,
              ⟨8, .str "P2", .num (.fin 2), .fin 40, "confirmed", 1⟩], []⟩ 7
              (.str "pending") .resolved).1
            = ⟨200, .order ⟨o.id, o.product_id, o.quantity, o.total_price, "pending", o.created_at⟩⟩
        ∧ (⟨o.id, o.product_id, o.quantity, o.total_price, "pending", o.created_at⟩ : Order)
            ∈ (updateStatus ⟨[⟨7, .str "P1", .num (.fin 1), .fin 10, "cancelled", 0⟩,
              ⟨8, .str "P2", .num (.fin 2), .fin 40, "confirmed", 1⟩], []⟩ 7
              (.str "pending") .resolved).2.orders)
      ∧ updateStatus ⟨[⟨8, .str "P2", .num (.fin 2), .fin 40, "confirmed", 1⟩], []⟩ 7
          (.str "pending") .resolved
        = (⟨404, .error "Order not found"⟩,
            ⟨[⟨8, .str "P2", .num (.fin 2), .fin 40, "confirmed", 1⟩], []⟩) :=
  ⟨(updateStatus_valid_status
      ⟨[⟨7, .str "P1", .num (.fin 1), .fin 10, "cancelled", 0⟩,
        ⟨8, .str "P2", .num (.fin 2), .fin 40, "confirmed", 1⟩], []⟩ 7 "pending" (by decide)).1
      ⟨⟨7, .str "P1", .num (.fin 1), .fin 10, "cancelled", 0⟩, List.mem_cons_self _ _, rfl⟩,
    (updateStatus_valid_status
      ⟨[⟨8, .str "P2", .num (.fin 2), .fin 40, "confirmed", 1⟩], []⟩ 7 "pending" (by decide)).2.2.2
      (by intro o ho; rw [List.mem_singleton] at ho; rw [ho]; decide)⟩

end OrderService

namespace OrderService

/-! ## Quantity -/

/-- C8 (counterexample): a request with `quantity: 0` for a product priced 10 a month,
the insert being accepted, is answered 201 and the stored row has quantity 0, whatever
the runtime's conversions of strings and objects. -/
theorem createOrder_stores_quantity_zero :
    (fun rt : Runtime =>
        createOrder rt ⟨[], []⟩ ⟨.str "P1", .num (.fin 0)⟩
          (.resolved (.fields (.num (.fin 10)) .undefined)) (.stored 1 0))
      = fun _ =>
          (⟨201, .order ⟨1, .str "P1", .num (.fin 0), .fin 0, "pending", 0⟩⟩,
            ⟨[⟨1, .str "P1", .num (.fin 0), .fin 0, "pending", 0⟩], []⟩) := by
  funext rt
  simp [createOrder, quantityOrDefault, JsVal.truthy, JsNum.truthy, jsMul, unitPrice, jsOr,
    toNumber, JsNum.mul, isSafeInteger]

/-- C8 (amended): whenever `POST /api/orders` answers 201, the row it has inserted and
returns has quantity 1 if the request sent no quantity, and otherwise exactly the value
the request sent: the handler passes the quantity to the insert without any check. -/
theorem createOrder_quantity_as_sent (rt : Runtime) (db : Db) (body : CreateBody)
    (validator : ValidatorOutcome) (ins : InsertOutcome)
    (h : (createOrder rt db body validator ins).1.status = 201) :
    ∃ row : Order,
      createOrder rt db body validator ins
        = (⟨201, .order row⟩, ⟨db.orders ++ [row], db.products⟩)
      ∧ (body.quantity = .undefined → row.quantity = .num (.fin 1))
      ∧ (body.quantity ≠ .undefined → row.quantity = body.quantity) := by
  rcases createOrder_cases rt db body validator ins with ⟨row, heq, _, _, hq⟩ | ⟨hst, _⟩
  · refine ⟨row, heq, ?_, ?_⟩
    · intro hu
      rw [hq, quantityOrDefault, if_pos hu]
    · intro hu
      rw [hq, quantityOrDefault, if_neg hu]
  · rw [h] at hst
    rcases hst with hst | hst <;> cases hst

theorem createOrder_quantity_as_sent_witness :
    ∃ row : Order,
      createOrder ⟨fun _ => .nan, fun _ => none, fun _ => .nan⟩ ⟨[], []⟩ ⟨.str "P1", .undefined⟩
          (.resolved (.fields (.num (.fin 10)) .undefined)) (.stored 1 0)
        = (⟨201, .order row⟩, ⟨[] ++ [row], []⟩)
      ∧ (JsVal.undefined = .undefined → row.quantity = .num (.fin 1))
      ∧ (JsVal.undefined ≠ .undefined → row.quantity = .undefined) :=
  createOrder_quantity_as_sent ⟨fun _ => .nan, fun _ => none, fun _ => .nan⟩ ⟨[], []⟩ ⟨.str "P1", .undefined⟩
    (.resolved (.fields (.num (.fin 10)) .undefined)) (.stored 1 0)
    (by simp [createOrder, quantityOrDefault, JsVal.truthy, JsNum.truthy, jsMul, unitPrice,
          jsOr, toNumber, JsNum.mul, isSafeInteger])

/-! ## Unit price -/

/-- C1 (the code at the failing input): for a product with `price_per_month: 0` and
`price_per_year: 120` and a request with quantity 1, the inserted and returned order
has total_price 120, which is not `price_per_month * quantity = 0`. -/
theorem createOrder_zero_monthly_price (rt : Runtime) (db : Db) :
    createOrder rt db ⟨.str "P1", .num (.fin 1)⟩
        (.resolved (.fields (.num (.fin 0)) (.num (.fin 120)))) (.stored 1 0)
      = (⟨201, .order ⟨1, .str "P1", .num (.fin 1), .fin 120, "pending", 0⟩⟩,
          ⟨db.orders ++ [⟨1, .str "P1", .num (.fin 1), .fin 120, "pending", 0⟩], db.products⟩)
      ∧ jsMul rt (.num (.fin 0)) (.num (.fin 1)) = some (.fin 0)
      ∧ JsNum.fin 120 ≠ JsNum.fin 0 := by
  refine ⟨?_, ?_, ?_⟩
  · simp [createOrder, quantityOrDefault, JsVal.truthy, JsNum.truthy, jsMul, unitPrice, jsOr,
      toNumber, JsNum.mul, isSafeInteger]
  · simp [jsMul, toNumber, JsNum.mul, isSafeInteger]
  · intro h
    injection h with h
    norm_num at h

/-- C9 (counterexample): for a product with neither price and a request whose quantity
is the JSON number `1e999` (read as `Infinity`), the insert being accepted, the answer
is 201 and the order's total_price is `NaN`, not 0, whatever the runtime's conversions
of strings and objects. -/
theorem createOrder_no_price_total_nan :
    (fun rt : Runtime =>
        createOrder rt ⟨[], []⟩ ⟨.str "P1", .num (.inf false)⟩
          (.resolved (.fields .undefined .undefined)) (.stored 1 0))
      = fun _ =>
          (⟨201, .order ⟨1, .str "P1", .num (.inf false), .nan, "pending", 0⟩⟩,
            ⟨[⟨1, .str "P1", .num (.inf false), .nan, "pending", 0⟩], []⟩) := by
  funext rt
  simp [createOrder, quantityOrDefault, JsVal.truthy, JsNum.truthy, jsMul, unitPrice, jsOr,
    toNumber, JsNum.mul, isSafeInteger]

/-- C9 (amended): for a request with a truthy `product_id` whose quantity converts to the
number `n`, a product the validator returns and an accepted insert, the answer is 201
and the order's total_price is the JavaScript product `u * n`, where the unit price `u`
is `price_per_month` when that value is truthy, `price_per_year` when `price_per_month`
is absent or null and `price_per_year` is truthy, and 0 when neither price is truthy
(both absent, or a price of 0 beside an absent or zero other price); with unit price 0
the total_price is 0 for every finite `n`. -/
theorem createOrder_unit_price (rt : Runtime) (db : Db) (body : CreateBody) (pm py : JsVal)
    (id created_at : Nat) (n : JsNum) (hpid : body.product_id.truthy = true)
    (hq : toNumber rt (quantityOrDefault body.quantity) = some n) :
    (pm.truthy = true → ∀ x, toNumber rt pm = some x →
        unitPrice pm py = pm
        ∧ (createOrder rt db body (.resolved (.fields pm py)) (.stored id created_at)).1
            = ⟨201, .order ⟨id, body.product_id, quantityOrDefault body.quantity, x.mul rt n,
                "pending", created_at⟩⟩)
      ∧ ((pm = .undefined ∨ pm = .null) → py.truthy = true → ∀ x, toNumber rt py = some x →
        unitPrice pm py = py
        ∧ (createOrder rt db body (.resolved (.fields pm py)) (.stored id created_at)).1
            = ⟨201, .order ⟨id, body.product_id, quantityOrDefault body.quantity, x.mul rt n,
                "pending", created_at⟩⟩)
      ∧ (pm.truthy = false → py.truthy = false →
        unitPrice pm py = .num (.fin 0)
        ∧ (createOrder rt db body (.resolved (.fields pm py)) (.stored id created_at)).1
            = ⟨201, .order ⟨id, body.product_id, quantityOrDefault body.quantity,
                (JsNum.fin 0).mul rt n, "pending", created_at⟩⟩
        ∧ ∀ q : ℚ, n = .fin q → (JsNum.fin 0).mul rt n = .fin 0) := by
  have key : ∀ u x, unitPrice pm py = u → toNumber rt u = some x →
      (createOrder rt db body (.resolved (.fields pm py)) (.stored id created_at)).1
        = ⟨201, .order ⟨id, body.product_id, quantityOrDefault body.quantity, x.mul rt n,
            "pending", created_at⟩⟩ := by
    intro u x hu hx
    have hmul : jsMul rt (unitPrice pm py) (quantityOrDefault body.quantity)
        = some (x.mul rt n) := by
      simp [jsMul, hu, hx, hq]
    rw [createOrder_accepted rt db body pm py id created_at _ hpid hmul]
  refine ⟨?_, ?_, ?_⟩
  · intro hpm x hx
    have hu : unitPrice pm py = pm := by simp [unitPrice, jsOr, hpm]
    exact ⟨hu, key pm x hu hx⟩
  · intro hpm hpy x hx
    have hu : unitPrice pm py = py := by
      have hin : jsOr pm py = py := by
        rcases hpm with rfl | rfl <;> rfl
      rw [unitPrice, hin, jsOr, if_pos hpy]
    exact ⟨hu, key py x hu hx⟩
  · intro hpm hpy
    have hu : unitPrice pm py = .num (.fin 0) := by
      simp [unitPrice, jsOr, hpm, hpy]
    refine ⟨hu, key _ (.fin 0) hu rfl, ?_⟩
    intro q hn
    subst hn
    simp [JsNum.mul, isSafeInteger]

theorem createOrder_unit_price_witness :
    (createOrder ⟨fun _ => .nan, fun _ => none, fun _ => .nan⟩ ⟨[], []⟩
        ⟨.str "P1", .num (.fin 3)⟩
        (.resolved (.fields (.num (.fin 10)) (.num (.fin 100)))) (.stored 1 0)).1
      = ⟨201, .order ⟨1, .str "P1", .num (.fin 3), .fin 30, "pending", 0⟩⟩
    ∧ (createOrder ⟨fun _ => .nan, fun _ => none, fun _ => .nan⟩ ⟨[], []⟩
        ⟨.str "P1", .num (.fin 3)⟩
        (.resolved (.fields .undefined (.num (.fin 100)))) (.stored 1 0)).1
      = ⟨201, .order ⟨1, .str "P1", .num (.fin 3), .fin 300, "pending", 0⟩⟩
    ∧ (createOrder ⟨fun _ => .nan, fun _ => none, fun _ => .nan⟩ ⟨[], []⟩
        ⟨.str "P1", .num (.fin 3)⟩
        (.resolved (.fields .undefined .undefined)) (.stored 1 0)).1
      = ⟨201, .order ⟨1, .str "P1", .num (.fin 3), .fin 0, "pending", 0⟩⟩
    ∧ (createOrder ⟨fun _ => .nan, fun _ => none, fun _ => .nan⟩ ⟨[], []⟩
        ⟨.str "P1", .num (.fin 3)⟩
        (.resolved (.fields (.num (.fin 0)) .undefined)) (.stored 1 0)).1
      = ⟨201, .order ⟨1, .str "P1", .num (.fin 3), .fin 0, "pending", 0⟩⟩
    ∧ (createOrder ⟨fun _ => .nan, fun _ => none, fun _ => .nan⟩ ⟨[], []⟩
        ⟨.str "P1", .num (.fin 3)⟩
        (.resolved (.fields .undefined (.num (.fin 0)))) (.stored 1 0)).1
      = ⟨201, .order ⟨1, .str "P1", .num (.fin 3), .fin 0, "pending", 0⟩⟩ := by
  have hm : (JsNum.fin 10).mul ⟨fun _ => .nan, fun _ => none, fun _ => .nan⟩ (.fin 3)
      = .fin 30 := by
    norm_num [JsNum.mul, isSafeInteger]
  have hy : (JsNum.fin 100).mul ⟨fun _ => .nan, fun _ => none, fun _ => .nan⟩ (.fin 3)
      = .fin 300 := by
    norm_num [JsNum.mul, isSafeInteger]
  have h1 := ((createOrder_unit_price ⟨fun _ => .nan, fun _ => none, fun _ => .nan⟩ ⟨[], []⟩
      ⟨.str "P1", .num (.fin 3)⟩ (.num (.fin 10)) (.num (.fin 100)) 1 0 (.fin 3)
      (by decide) rfl).1 (by decide) (.fin 10) rfl).2
  have h2 := ((createOrder_unit_price ⟨fun _ => .nan, fun _ => none, fun _ => .nan⟩ ⟨[], []⟩
      ⟨.str "P1", .num (.fin 3)⟩ .undefined (.num (.fin 100)) 1 0 (.fin 3)
      (by decide) rfl).2.1 (Or.inl rfl) (by decide) (.fin 100) rfl).2
  have h3 := ((createOrder_unit_price ⟨fun _ => .nan, fun _ => none, fun _ => .nan⟩ ⟨[], []⟩
      ⟨.str "P1", .num (.fin 3)⟩ .undefined .undefined 1 0 (.fin 3)
      (by decide) rfl).2.2 (by decide) (by decide))
  have h4 := ((createOrder_unit_price ⟨fun _ => .nan, fun _ => none, fun _ => .nan⟩ ⟨[], []⟩
      ⟨.str "P1", .num (.fin 3)⟩ (.num (.fin 0)) .undefined 1 0 (.fin 3)
      (by decide) rfl).2.2 (by decide) (by decide))
  have h5 := ((createOrder_unit_price ⟨fun _ => .nan, fun _ => none, fun _ => .nan⟩ ⟨[], []⟩
      ⟨.str "P1", .num (.fin 3)⟩ .undefined (.num (.fin 0)) 1 0 (.fin 3)
      (by decide) rfl).2.2 (by decide) (by decide))
  rw [hm] at h1
  rw [hy] at h2
  have h3' := h3.2.1
  rw [h3.2.2 3 rfl] at h3'
  have h4' := h4.2.1
  rw [h4.2.2 3 rfl] at h4'
  have h5' := h5.2.1
  rw [h5.2.2 3 rfl] at h5'
  exact ⟨h1, h2, h3', h4', h5'⟩

theorem listByStatus_perm_filter_listOrders_witness :
    ∃ all sel : List OrderView,
      listOrders ⟨[⟨1, .str "P1", .num (.fin 1), .fin 10, "pending", 5⟩,
          ⟨2, .str "P2", .num (.fin 1), .fin 20, "confirmed", 9⟩,
          ⟨3, .str "P1", .num (.fin 2), .fin 20, "pending", 7⟩], []⟩
          (.resolved (fun r => r.order.id)) = ⟨200, .rows all⟩
      ∧ listByStatus ⟨[⟨1, .str "P1", .num (.fin 1), .fin 10, "pending", 5⟩,
          ⟨2, .str "P2", .num (.fin 1), .fin 20, "confirmed", 9⟩,
          ⟨3, .str "P1", .num (.fin 2), .fin 20, "pending", 7⟩], []⟩ "done"
          (.resolved (fun r => 3 - r.order.id)) = ⟨200, .rows sel⟩
      ∧ SortedDesc all ∧ sel = [] :=
  have ⟨all, sel, h₁, h₂, _, h₃, _, _, _, h₄⟩ :=
    listByStatus_perm_filter_listOrders
      ⟨[⟨1, .str "P1", .num (.fin 1), .fin 10, "pending", 5⟩,
        ⟨2, .str "P2", .num (.fin 1), .fin 20, "confirmed", 9⟩,
        ⟨3, .str "P1", .num (.fin 2), .fin 20, "pending", 7⟩], []⟩ "done"
      (fun r => r.order.id) (fun r => 3 - r.order.id)
  ⟨all, sel, h₁, h₂, h₃, h₄ (by decide)
    (by
      intro o ho
      simp only [List.mem_cons, List.mem_singleton, List.not_mem_nil, or_false] at ho
      rcases ho with rfl | rfl | rfl <;> decide)⟩

theorem createOrder_atomic_witness :
    createOrder ⟨fun _ => .nan, fun _ => none, fun _ => .nan⟩ ⟨[], []⟩ ⟨.str "", .num (.fin 3)⟩
        (.resolved (.fields (.num (.fin 10)) .undefined)) (.stored 1 0)
      = createOrder ⟨fun _ => .nan, fun _ => none, fun _ => .nan⟩ ⟨[], []⟩ ⟨.str "", .num (.fin 3)⟩
        (.resolved (.fields (.num (.fin 10)) .undefined)) .rejected
    ∧ (createOrder ⟨fun _ => .nan, fun _ => none, fun _ => .nan⟩ ⟨[], []⟩ ⟨.str "P1", .num (.fin 3)⟩
        (.rejected none) .rejected).2 = ⟨[], []⟩ :=
  ⟨((createOrder_atomic ⟨fun _ => .nan, fun _ => none, fun _ => .nan⟩ ⟨[], []⟩ ⟨.str "", .num (.fin 3)⟩
        (.resolved (.fields (.num (.fin 10)) .undefined)) .rejected).2 (Or.inl rfl)).2
      (.stored 1 0),
    ((createOrder_atomic ⟨fun _ => .nan, fun _ => none, fun _ => .nan⟩ ⟨[], []⟩ ⟨.str "P1", .num (.fin 3)⟩
        (.rejected none) .rejected).2 (Or.inr ⟨none, rfl⟩)).1⟩

end OrderService
